import Mathlib

/-!
Verification of the LazyProxy client transport layer
(`client/module/Agent/service/{MQTT,WebSocket,HTTP}.py`).

Shallow embedding conventions:
* a Message (a decoded JSON dict) is an opaque type `α`; JSON
  encoding/decoding at the transport boundary is not modelled, the inbound
  surface is presented already decoded;
* Python exceptions become constructors of `SendError`;
* the result of one `send` call is a `SendOutcome`: Python may return a
  single dict (`single`), return a list (`stream`), raise (`err`), or block
  forever / still be polling (`pending`);
* wall-clock time is an abstract non-negative quantity: `clock i` is the
  value of `time.time() - start` observed at poll iteration `i`, and the
  MQTT polling loops, which in Python run `while True`, are given explicit
  fuel — `pending` reports that the loop was still running when the fuel
  ran out;
* the MQTT background listener thread is modelled by an arrival schedule:
  `arrivals i` is the list of messages the `_on_message` callback appended
  to `self.messages` (in FIFO order, under the lock) since the previous
  poll iteration, so each poll iteration observes the buffer
  `buffer ++ arrivals i`.
-/

set_option linter.unusedVariables false

/-- Errors a `send`/`connect` call can raise: `notConnected` is the
`ConnectionError` raised when `self.client`/`self.ws` is `None`;
`connectionRefused` is the `ConnectionError` for an unreachable remote;
`timeout` is `TimeoutError`; `typeError` is the `TypeError` raised when a
`None` callback is invoked as a function. -/
inductive SendError : Type
  | notConnected
  | connectionRefused
  | timeout
  | typeError
deriving DecidableEq

/-- Observable outcome of one `send` call: it returned one message,
returned a list of messages, raised an error, or has not finished
(still polling / blocked on a read). -/
inductive SendOutcome (α : Type) : Type
  | single (m : α)
  | stream (l : List α)
  | err (e : SendError)
  | pending
deriving DecidableEq

/-- State of an `MQTT` client object (`MQTT.py`).  `client` is `some ()`
iff `self.client` is not `None`; `messages` is the `self.messages` inbox
buffer; remaining fields mirror the constructor's attributes.  The
`_lock` is modelled by treating each poll iteration of `send` and each
listener append as atomic. -/
structure MQTT (α : Type) : Type where
  broker : String
  port : Nat
  request_topic : String
  response_topic : String
  callback : Option (α → Bool)
  timeout : Nat
  client : Option Unit
  messages : List α

/-- The `MQTT.send` polling loop for `self.callback is None`
(`MQTT.py` lines 69-75): each iteration pops the front of the buffer and
returns it if present, otherwise raises `TimeoutError` when
`time.time() - start > timeout`, otherwise sleeps and repeats.  Returns
the outcome together with the final contents of `self.messages`. -/
def mqttSingleLoop {α : Type} (timeout : Nat) (clock : Nat → Nat)
    (arrivals : Nat → List α) :
    Nat → Nat → List α → SendOutcome α × List α
  | 0, i, buffer => (.pending, buffer ++ arrivals i)
  | fuel + 1, i, buffer =>
    match buffer ++ arrivals i with
    | m :: rest => (.single m, rest)
    | [] =>
      if timeout < clock i then (.err .timeout, [])
      else mqttSingleLoop timeout clock arrivals fuel (i + 1) []

/-- The `MQTT.send` streaming loop for a supplied callback
(`MQTT.py` lines 78-88): each iteration pops the front of the buffer if
present, appends it to `results`, returns `results` if the callback
accepts it; then (message or not) raises `TimeoutError` when
`time.time() - start > timeout`, otherwise sleeps and repeats. -/
def mqttStreamLoop {α : Type} (cb : α → Bool) (timeout : Nat)
    (clock : Nat → Nat) (arrivals : Nat → List α) :
    Nat → Nat → List α → List α → SendOutcome α × List α
  | 0, i, buffer, results => (.pending, buffer ++ arrivals i)
  | fuel + 1, i, buffer, results =>
    match buffer ++ arrivals i with
    | m :: rest =>
      if cb m then (.stream (results ++ [m]), rest)
      else if timeout < clock i then (.err .timeout, rest)
      else mqttStreamLoop cb timeout clock arrivals fuel (i + 1) rest
        (results ++ [m])
    | [] =>
      if timeout < clock i then (.err .timeout, [])
      else mqttStreamLoop cb timeout clock arrivals fuel (i + 1) [] results

/-- `MQTT.send` (`MQTT.py` lines 49-88): raises `ConnectionError` when
`self.client is None`; otherwise publishes the request (outbound side not
modelled) and enters the polling loop selected by `self.callback`.
Returns the outcome paired with the final `self.messages`. -/
def MQTT.send {α : Type} (s : MQTT α) (clock : Nat → Nat)
    (arrivals : Nat → List α) (fuel : Nat) : SendOutcome α × List α :=
  match s.client with
  | none => (.err .notConnected, s.messages)
  | some _ =>
    match s.callback with
    | none => mqttSingleLoop s.timeout clock arrivals fuel 0 s.messages
    | some cb => mqttStreamLoop cb s.timeout clock arrivals fuel 0 s.messages []

/-- `MQTT.connect` (`MQTT.py` lines 41-47): unconditionally creates a new
client, connects to the broker, subscribes and starts the listener loop.
`reachable` tells whether the broker accepts the TCP connection; the only
state field affected is `self.client`. -/
def MQTT.connect {α : Type} (s : MQTT α) (reachable : Bool) :
    Except SendError (MQTT α) :=
  if reachable then .ok { s with client := some () }
  else .error .connectionRefused

/-- `MQTT.close` (`MQTT.py` lines 90-95): when `self.client` is not
`None`, stops the listener loop, disconnects and sets `self.client = None`;
no other attribute is touched. -/
def MQTT.close {α : Type} (s : MQTT α) : MQTT α :=
  match s.client with
  | some _ => { s with client := none }
  | none => s

/-- State of a `WebSocket` client object (`WebSocket.py`): `ws` is
`some ()` iff `self.ws` is not `None`. -/
structure WebSocket (α : Type) : Type where
  url : String
  ws : Option Unit
  callback : Option (α → Bool)

/-- The `WebSocket.send` streaming loop (`WebSocket.py` lines 43-48):
repeatedly `recv` a frame, append it to `results`, and return `results`
once the callback accepts a frame.  `frames` is the complete list of
frames the peer ever delivers on this connection; `recv` has no timeout,
so exhausting `frames` leaves the call blocked forever (`pending`). -/
def wsRecvLoop {α : Type} (cb : α → Bool) : List α → List α → SendOutcome α
  | [], results => .pending
  | f :: rest, results =>
    if cb f then .stream (results ++ [f])
    else wsRecvLoop cb rest (results ++ [f])

/-- `WebSocket.send` (`WebSocket.py` lines 23-48): raises
`ConnectionError` when `self.ws is None`; otherwise sends the request
frame (outbound side not modelled) and, with no callback, returns the
single next inbound frame (blocking forever if none ever arrives), or,
with a callback, runs the streaming receive loop. -/
def WebSocket.send {α : Type} (w : WebSocket α) (frames : List α) :
    SendOutcome α :=
  match w.ws with
  | none => .err .notConnected
  | some _ =>
    match w.callback with
    | none =>
      match frames with
      | [] => .pending
      | f :: _ => .single f
    | some cb => wsRecvLoop cb frames []

/-- `WebSocket.connect` (`WebSocket.py` lines 19-21): unconditionally
performs the handshake and assigns `self.ws`. -/
def WebSocket.connect {α : Type} (w : WebSocket α) (reachable : Bool) :
    Except SendError (WebSocket α) :=
  if reachable then .ok { w with ws := some () }
  else .error .connectionRefused

/-- `WebSocket.close` (`WebSocket.py` lines 50-54): when `self.ws` is not
`None`, closes it and sets `self.ws = None`. -/
def WebSocket.close {α : Type} (w : WebSocket α) : WebSocket α :=
  match w.ws with
  | some _ => { w with ws := none }
  | none => w

/-- Errors `HTTP.__init__` can raise: `typeError` for a `None` base_url,
`valueError` for a non-positive timeout. -/
inductive InitError : Type
  | typeError
  | valueError
deriving DecidableEq

/-- State of an `HTTP` client object (`HTTP.py`).  `base_url` is an
`Option` because Python allows passing `None` despite the `str`
annotation; `timeout` is an `Int` because non-positive values are
possible inputs; `client` is `some ()` iff `self.client` is not `None`. -/
structure HTTP (α : Type) : Type where
  base_url : Option String
  endpoint : String
  timeout : Int
  ended : Option (α → Bool)
  client : Option Unit

/-- `HTTP.__init__` (`HTTP.py` lines 9-30): raises `TypeError` when
`base_url == None`, then raises `ValueError` when `timeout <= 0`,
otherwise stores the four attributes unchanged and leaves
`self.client = None`. -/
def HTTP.init {α : Type} (ended : Option (α → Bool))
    (base_url : Option String) (endpoint : String) (timeout : Int) :
    Except InitError (HTTP α) :=
  if base_url = none then .error .typeError
  else if timeout ≤ 0 then .error .valueError
  else .ok { base_url := base_url, endpoint := endpoint, timeout := timeout,
             ended := ended, client := none }

/-- `HTTP.connect` (`HTTP.py` lines 32-38): unconditionally builds a new
`httpx.Client` and assigns `self.client`; purely local, never raises. -/
def HTTP.connect {α : Type} (h : HTTP α) : HTTP α :=
  { h with client := some () }

/-- What the network does to one streamed POST request: the connection is
refused (`httpx.ConnectError`), the configured timeout elapses
(`httpx.TimeoutException`), or a response body arrives whose non-empty
lines decode to `lines`. -/
inductive NetResult (α : Type) : Type
  | refused
  | timedOut
  | body (lines : List α)
deriving DecidableEq

/-- The generator body of `HTTP.send` (`HTTP.py` lines 56-62), fully
consumed by the caller: each decoded line is yielded and then tested with
`self.ended`; reading stops when `ended` accepts a message or the body
ends.  When `ended` is `None`, calling it raises `TypeError` (and the
consumer that drives the generator to completion sees the exception, not
a list). -/
def httpReadLoop {α : Type} (ended : Option (α → Bool)) :
    List α → List α → SendOutcome α
  | [], results => .stream results
  | m :: rest, results =>
    match ended with
    | none => .err .typeError
    | some e =>
      if e m then .stream (results ++ [m])
      else httpReadLoop ended rest (results ++ [m])

/-- `HTTP.send` (`HTTP.py` lines 40-66), as observed by a caller that
consumes the generator to completion: raises `ConnectionError` when
`self.client is None`; translates `httpx.ConnectError` to
`ConnectionError` and `httpx.TimeoutException` to `TimeoutError`;
otherwise streams the response body through `httpReadLoop`. -/
def HTTP.send {α : Type} (h : HTTP α) (net : NetResult α) : SendOutcome α :=
  match h.client with
  | none => .err .notConnected
  | some _ =>
    match net with
    | .refused => .err .connectionRefused
    | .timedOut => .err .timeout
    | .body lines => httpReadLoop h.ended lines []

/-- `HTTP.close` (`HTTP.py` lines 68-72): when `self.client` is not
`None`, closes it and sets `self.client = None`. -/
def HTTP.close {α : Type} (h : HTTP α) : HTTP α :=
  match h.client with
  | some _ => { h with client := none }
  | none => h

/-- Shape of a returned stream under termination predicate `cb`: the
stream is non-empty, its last element satisfies `cb`, and every element
before the last fails `cb`. -/
def streamShape {α : Type} (cb : α → Bool) (l : List α) : Prop :=
  (∃ m, l.getLast? = some m ∧ cb m = true) ∧
    ∀ m ∈ l.dropLast, cb m = false

theorem mqttStreamLoop_stream_shape {α : Type} (cb : α → Bool) (timeout : Nat)
    (clock : Nat → Nat) (arrivals : Nat → List α) :
    ∀ (fuel i : Nat) (buffer results : List α) (l buf' : List α),
      (∀ m ∈ results, cb m = false) →
      mqttStreamLoop cb timeout clock arrivals fuel i buffer results =
        (.stream l, buf') →
      streamShape cb l := by
  intro fuel
  induction fuel with
  | zero =>
    intro i buffer results l buf' hres h
    simp [mqttStreamLoop] at h
  | succ n ih =>
    intro i buffer results l buf' hres h
    rcases hbuf : buffer ++ arrivals i with _ | ⟨m, rest⟩ <;>
      simp only [mqttStreamLoop, hbuf] at h
    · by_cases ht : timeout < clock i
      · simp [ht] at h
      · simp only [ht, if_false] at h
        exact ih _ _ _ _ _ hres h
    · by_cases hcb : cb m
      · simp only [hcb, if_true] at h
        obtain ⟨hl, -⟩ := Prod.mk.injEq .. ▸ h
        cases hl
        refine ⟨⟨m, ?_, hcb⟩, ?_⟩
        · simp
        · simpa [List.dropLast_concat] using hres
      · by_cases ht : timeout < clock i
        · simp [hcb, ht] at h
        · simp only [hcb, if_false, ht] at h
          refine ih _ _ _ _ _ ?_ h
          intro x hx
          rcases List.mem_append.mp hx with h1 | h2
          · exact hres x h1
          · simp only [List.mem_singleton] at h2
            subst h2
            exact Bool.eq_false_iff.mpr hcb

theorem wsRecvLoop_stream_shape {α : Type} (cb : α → Bool) :
    ∀ (frames results l : List α),
      (∀ m ∈ results, cb m = false) →
      wsRecvLoop cb frames results = .stream l →
      streamShape cb l := by
  intro frames
  induction frames with
  | nil =>
    intro results l hres h
    simp [wsRecvLoop] at h
  | cons f rest ih =>
    intro results l hres h
    by_cases hcb : cb f
    · simp only [wsRecvLoop, hcb, if_true, SendOutcome.stream.injEq] at h
      cases h
      refine ⟨⟨f, ?_, hcb⟩, ?_⟩
      · simp
      · simpa [List.dropLast_concat] using hres
    · simp only [wsRecvLoop, hcb, if_false] at h
      refine ih _ _ ?_ h
      intro x hx
      rcases List.mem_append.mp hx with h1 | h2
      · exact hres x h1
      · simp only [List.mem_singleton] at h2
        subst h2
        exact Bool.eq_false_iff.mpr hcb

theorem mqttSingleLoop_cases {α : Type} (timeout : Nat) (clock : Nat → Nat)
    (arrivals : Nat → List α) :
    ∀ (fuel i : Nat) (buffer : List α),
      (mqttSingleLoop timeout clock arrivals fuel i buffer).1 = .pending ∨
      (∃ m, (mqttSingleLoop timeout clock arrivals fuel i buffer).1 =
        .single m) ∨
      (mqttSingleLoop timeout clock arrivals fuel i buffer).1 =
        .err .timeout := by
  intro fuel
  induction fuel with
  | zero =>
    intro i buffer
    simp [mqttSingleLoop]
  | succ n ih =>
    intro i buffer
    rcases hbuf : buffer ++ arrivals i with _ | ⟨m, rest⟩ <;>
      simp only [mqttSingleLoop, hbuf]
    · by_cases ht : timeout < clock i
      · simp [ht]
      · simp only [ht, if_false]
        exact ih _ _
    · exact Or.inr (Or.inl ⟨m, rfl⟩)

theorem mqttSingleLoop_expired_ne_pending {α : Type} (timeout : Nat)
    (clock : Nat → Nat) (arrivals : Nat → List α) (j : Nat)
    (hmono : ∀ a b, a ≤ b → clock a ≤ clock b) (hexp : timeout < clock j) :
    ∀ (fuel i : Nat) (buffer : List α), i ≤ j → j - i < fuel →
      (mqttSingleLoop timeout clock arrivals fuel i buffer).1 ≠ .pending := by
  intro fuel
  induction fuel with
  | zero =>
    intro i buffer hij hf
    omega
  | succ n ih =>
    intro i buffer hij hf
    rcases hbuf : buffer ++ arrivals i with _ | ⟨m, rest⟩ <;>
      simp only [mqttSingleLoop, hbuf]
    · by_cases ht : timeout < clock i
      · simp [ht]
      · simp only [ht, if_false]
        have hlt : i < j := by
          rcases Nat.lt_or_ge i j with h | h
          · exact h
          · exact absurd (lt_of_lt_of_le hexp (hmono j i h)) ht
        exact ih (i + 1) [] hlt (by omega)
    · simp

theorem mqttStreamLoop_expired_ne_pending {α : Type} (cb : α → Bool)
    (timeout : Nat) (clock : Nat → Nat) (arrivals : Nat → List α) (j : Nat)
    (hmono : ∀ a b, a ≤ b → clock a ≤ clock b) (hexp : timeout < clock j) :
    ∀ (fuel i : Nat) (buffer results : List α), i ≤ j → j - i < fuel →
      (mqttStreamLoop cb timeout clock arrivals fuel i buffer results).1 ≠
        .pending := by
  intro fuel
  induction fuel with
  | zero =>
    intro i buffer results hij hf
    omega
  | succ n ih =>
    intro i buffer results hij hf
    have hlt : ¬ timeout < clock i → i < j := by
      intro ht
      rcases Nat.lt_or_ge i j with h | h
      · exact h
      · exact absurd (lt_of_lt_of_le hexp (hmono j i h)) ht
    rcases hbuf : buffer ++ arrivals i with _ | ⟨m, rest⟩ <;>
      simp only [mqttStreamLoop, hbuf]
    · by_cases ht : timeout < clock i
      · simp [ht]
      · simp only [ht, if_false]
        exact ih (i + 1) [] results (hlt ht) (by omega)
    · by_cases hcb : cb m
      · simp [hcb]
      · by_cases ht : timeout < clock i
        · simp [hcb, ht]
        · simp only [hcb, ht, if_false]
          exact ih (i + 1) rest (results ++ [m]) (hlt ht) (by omega)

theorem mqttStreamLoop_allFalse_cases {α : Type} (cb : α → Bool)
    (timeout : Nat) (clock : Nat → Nat) (arrivals : Nat → List α)
    (harr : ∀ i m, m ∈ arrivals i → cb m = false) :
    ∀ (fuel i : Nat) (buffer results : List α),
      (∀ m ∈ buffer, cb m = false) →
      (mqttStreamLoop cb timeout clock arrivals fuel i buffer results).1 =
        .pending ∨
      (mqttStreamLoop cb timeout clock arrivals fuel i buffer results).1 =
        .err .timeout := by
  intro fuel
  induction fuel with
  | zero =>
    intro i buffer results hbuf
    simp [mqttStreamLoop]
  | succ n ih =>
    intro i buffer results hbufall
    have hall : ∀ m ∈ buffer ++ arrivals i, cb m = false := by
      intro m hm
      rcases List.mem_append.mp hm with h1 | h2
      · exact hbufall m h1
      · exact harr i m h2
    rcases hbuf : buffer ++ arrivals i with _ | ⟨m, rest⟩ <;>
      simp only [mqttStreamLoop, hbuf]
    · by_cases ht : timeout < clock i
      · simp [ht]
      · simp only [ht, if_false]
        exact ih _ _ _ (by simp)
    · have hm : cb m = false := hall m (hbuf ▸ List.mem_cons_self m rest)
      have hrest : ∀ x ∈ rest, cb x = false := by
        intro x hx
        exact hall x (hbuf ▸ List.mem_cons_of_mem m hx)
      by_cases ht : timeout < clock i
      · simp [hm, ht]
      · simp only [hm, Bool.false_eq_true, if_false, ht]
        exact ih _ _ _ hrest

theorem wsRecvLoop_allFalse_pending {α : Type} (cb : α → Bool) :
    ∀ (frames results : List α), (∀ m ∈ frames, cb m = false) →
      wsRecvLoop cb frames results = .pending := by
  intro frames
  induction frames with
  | nil =>
    intro results hall
    rfl
  | cons f rest ih =>
    intro results hall
    have hf : cb f = false := hall f (List.mem_cons_self f rest)
    simp only [wsRecvLoop, hf, Bool.false_eq_true, if_false]
    exact ih _ fun m hm => hall m (List.mem_cons_of_mem f hm)

theorem httpReadLoop_ne_single {α : Type} (ended : Option (α → Bool)) :
    ∀ (lines results : List α) (m : α),
      httpReadLoop ended lines results ≠ .single m := by
  intro lines
  induction lines with
  | nil =>
    intro results m
    simp [httpReadLoop]
  | cons x rest ih =>
    intro results m
    rcases ended with _ | e
    · simp [httpReadLoop]
    · by_cases hx : e x
      · simp [httpReadLoop, hx]
      · simp only [httpReadLoop, hx, Bool.false_eq_true, if_false]
        exact ih _ _

/-- C1: for every Exchange run with a Termination Predicate, if `send`
returns a sequence of Messages then its last element satisfies the
predicate and every preceding element does not, for the
publish/subscribe (`MQTT.send`) and full-duplex-socket
(`WebSocket.send`) variants. -/
theorem stream_result_last_satisfies_callback {α : Type} (cb : α → Bool) :
    (∀ (s : MQTT α) (clock : Nat → Nat) (arrivals : Nat → List α)
      (fuel : Nat) (l buf' : List α),
      s.callback = some cb →
      MQTT.send s clock arrivals fuel = (.stream l, buf') →
      streamShape cb l) ∧
    (∀ (w : WebSocket α) (frames l : List α),
      w.callback = some cb →
      WebSocket.send w frames = .stream l →
      streamShape cb l) := by
  constructor
  · intro s clock arrivals fuel l buf' hcb h
    rcases hc : s.client with _ | u
    · simp [MQTT.send, hc] at h
    · simp only [MQTT.send, hc, hcb] at h
      exact mqttStreamLoop_stream_shape cb s.timeout clock arrivals fuel 0
        s.messages [] l buf' (by simp) h
  · intro w frames l hcb h
    rcases hc : w.ws with _ | u
    · simp [WebSocket.send, hc] at h
    · simp only [WebSocket.send, hc, hcb] at h
      exact wsRecvLoop_stream_shape cb frames [] l (by simp) h

/-- Witness for C1: a concrete MQTT exchange whose buffer delivers
`[1, 2, 3]` under the predicate `m == 3` returns the full stream, whose
shape the claim theorem then certifies. -/
theorem stream_result_last_satisfies_callback_witness :
    streamShape (fun m : Nat => m == 3) [1, 2, 3] :=
  (stream_result_last_satisfies_callback (fun m : Nat => m == 3)).1
    ⟨"b", 1883, "agent/request", "agent/response",
      some (fun m : Nat => m == 3), 30, some (), [1, 2, 3]⟩
    (fun _ => 0) (fun _ => []) 5 [1, 2, 3] [] rfl rfl

/-- C2 counterexample: the streaming-request (HTTP) variant, run without a
Termination Predicate (`ended = None`) on a connected client whose
response body contains no lines, completes normally with zero Messages
(an empty stream) — it does not return exactly one Message and raises no
timeout/failure, contradicting the claim for this variant. -/
theorem http_send_zero_messages_no_failure :
    HTTP.send (⟨some "http://127.0.0.1:8000", "/chat", 30, none, some ()⟩ :
      HTTP Nat) (.body []) = .stream [] := rfl

/-- C2 amended: for the publish/subscribe and full-duplex-socket variants,
an Exchange without a Termination Predicate that completes returns exactly
one Message or raises a failure — never zero Messages and never a
sequence (the socket variant may instead block forever when no frame
arrives); the streaming-request variant's `send` never returns a single
Message: it always produces a stream, which can be empty with no
failure. -/
theorem no_callback_single_or_failure {α : Type} :
    (∀ (s : MQTT α) (clock : Nat → Nat) (arrivals : Nat → List α)
      (fuel : Nat), s.callback = none →
      (MQTT.send s clock arrivals fuel).1 = .pending ∨
      (∃ m, (MQTT.send s clock arrivals fuel).1 = .single m) ∨
      (∃ e, (MQTT.send s clock arrivals fuel).1 = .err e)) ∧
    (∀ (w : WebSocket α) (frames : List α), w.callback = none →
      WebSocket.send w frames = .pending ∨
      (∃ m, WebSocket.send w frames = .single m) ∨
      (∃ e, WebSocket.send w frames = .err e)) ∧
    (∀ (h : HTTP α) (net : NetResult α) (m : α),
      HTTP.send h net ≠ .single m) ∧
    (∀ (bu : Option String) (ep : String) (t : Int),
      HTTP.send (⟨bu, ep, t, none, some ()⟩ : HTTP α) (.body []) =
        .stream []) := by
  refine ⟨?_, ?_, ?_, fun bu ep t => rfl⟩
  · intro s clock arrivals fuel hcb
    rcases hc : s.client with _ | u
    · simp [MQTT.send, hc]
    · simp only [MQTT.send, hc, hcb]
      rcases mqttSingleLoop_cases s.timeout clock arrivals fuel 0 s.messages
        with h | ⟨m, h⟩ | h
      · exact Or.inl h
      · exact Or.inr (Or.inl ⟨m, h⟩)
      · exact Or.inr (Or.inr ⟨.timeout, h⟩)
  · intro w frames hcb
    rcases hc : w.ws with _ | u
    · exact Or.inr (Or.inr ⟨.notConnected, by simp [WebSocket.send, hc]⟩)
    · rcases frames with _ | ⟨f, rest⟩
      · exact Or.inl (by simp [WebSocket.send, hc, hcb])
      · exact Or.inr (Or.inl ⟨f, by simp [WebSocket.send, hc, hcb]⟩)
  · intro h net m
    rcases hc : h.client with _ | u
    · simp [HTTP.send, hc]
    · rcases net with _ | _ | lines <;> simp only [HTTP.send, hc]
      · simp
      · simp
      · exact httpReadLoop_ne_single h.ended lines [] m

/-- Witness for C2 (amended): a concrete no-callback MQTT exchange with a
buffered message falls under the single-or-failure disjunction. -/
theorem no_callback_single_or_failure_witness :
    (MQTT.send (⟨"b", 1883, "agent/request", "agent/response", none, 30,
      some (), [7]⟩ : MQTT Nat) (fun _ => 0) (fun _ => []) 3).1 =
        .pending ∨
    (∃ m, (MQTT.send (⟨"b", 1883, "agent/request", "agent/response", none,
      30, some (), [7]⟩ : MQTT Nat) (fun _ => 0) (fun _ => []) 3).1 =
        .single m) ∨
    (∃ e, (MQTT.send (⟨"b", 1883, "agent/request", "agent/response", none,
      30, some (), [7]⟩ : MQTT Nat) (fun _ => 0) (fun _ => []) 3).1 =
        .err e) :=
  (no_callback_single_or_failure).1
    ⟨"b", 1883, "agent/request", "agent/response", none, 30, some (), [7]⟩
    (fun _ => 0) (fun _ => []) 3 rfl

/-- C3: an MQTT streaming Exchange that times out raises `TimeoutError`
and the caller observes no partially accumulated Messages: whenever the
deadline elapses and no delivered Message (buffered or arriving) ever
satisfies the callback, the outcome is exactly the timeout error — the
`results` list built inside the loop is discarded, not returned. -/
theorem timeout_discards_accumulated_results {α : Type} (s : MQTT α)
    (cb : α → Bool) (clock : Nat → Nat) (arrivals : Nat → List α)
    (j fuel : Nat)
    (hclient : s.client = some ())
    (hcb : s.callback = some cb)
    (hmono : ∀ a b, a ≤ b → clock a ≤ clock b)
    (hexp : s.timeout < clock j)
    (hfuel : j < fuel)
    (hbuf : ∀ m ∈ s.messages, cb m = false)
    (harr : ∀ i m, m ∈ arrivals i → cb m = false) :
    (MQTT.send s clock arrivals fuel).1 = .err .timeout := by
  simp only [MQTT.send, hclient, hcb]
  rcases mqttStreamLoop_allFalse_cases cb s.timeout clock arrivals harr fuel
      0 s.messages [] hbuf with h | h
  · exact absurd h (mqttStreamLoop_expired_ne_pending cb s.timeout clock
      arrivals j hmono hexp fuel 0 s.messages [] (Nat.zero_le j) (by omega))
  · exact h

/-- Witness for C3: a message does arrive (at the first poll) but never
satisfies the callback; the deadline elapses and the outcome is exactly
`TimeoutError`, with nothing returned. -/
theorem timeout_discards_accumulated_results_witness :
    (MQTT.send (⟨"b", 1883, "agent/request", "agent/response",
      some (fun _ => false), 30, some (), []⟩ : MQTT Nat)
      (fun i => 20 * i) (fun i => if i = 0 then [5] else []) 3).1 =
      .err .timeout :=
  timeout_discards_accumulated_results _ (fun _ => false) _ _ 2 3 rfl rfl
    (fun a b hab => Nat.mul_le_mul_left 20 hab) (by norm_num) (by norm_num)
    (by simp) (fun i m hm => rfl)

/-- C4 counterexample: the full-duplex-socket variant has no deadline at
all: a connected WebSocket exchange whose callback accepts no frame
consumes the one frame that ever arrives and then blocks forever on
`recv` — it never results in a timeout failure, an unbounded wait. -/
theorem websocket_wait_unbounded :
    WebSocket.send (⟨"ws://127.0.0.1:8000/ws", some (),
      some (fun _ => false)⟩ : WebSocket Nat) [0] = .pending := rfl

/-- C4 amended: the publish/subscribe (MQTT) variant bounds every wait by
the deadline — once the observed clock exceeds the timeout the polling
loop terminates (returns or raises) — but the full-duplex-socket
(WebSocket) variant has no deadline: when no arriving frame satisfies the
callback, `send` blocks forever and never raises a timeout. -/
theorem mqtt_wait_bounded_ws_unbounded {α : Type} :
    (∀ (s : MQTT α) (clock : Nat → Nat) (arrivals : Nat → List α)
      (j fuel : Nat),
      (∀ a b, a ≤ b → clock a ≤ clock b) → s.timeout < clock j → j < fuel →
      (MQTT.send s clock arrivals fuel).1 ≠ .pending) ∧
    (∀ (w : WebSocket α) (cb : α → Bool) (frames : List α),
      w.ws = some () → w.callback = some cb →
      (∀ m ∈ frames, cb m = false) →
      WebSocket.send w frames = .pending) := by
  constructor
  · intro s clock arrivals j fuel hmono hexp hfuel
    rcases hc : s.client with _ | u
    · simp [MQTT.send, hc]
    · rcases hcb : s.callback with _ | cb <;> simp only [MQTT.send, hc, hcb]
      · exact mqttSingleLoop_expired_ne_pending s.timeout clock arrivals j
          hmono hexp fuel 0 s.messages (Nat.zero_le j) (by omega)
      · exact mqttStreamLoop_expired_ne_pending cb s.timeout clock arrivals
          j hmono hexp fuel 0 s.messages [] (Nat.zero_le j) (by omega)
  · intro w cb frames hws hcb hall
    simp only [WebSocket.send, hws, hcb]
    exact wsRecvLoop_allFalse_pending cb frames [] hall

/-- Witness for C4 (amended): a concrete MQTT run whose clock passes the
timeout terminates, while a concrete WebSocket run with two useless
frames stays blocked forever. -/
theorem mqtt_wait_bounded_ws_unbounded_witness :
    (MQTT.send (⟨"b", 1883, "agent/request", "agent/response", none, 30,
      some (), []⟩ : MQTT Nat) (fun i => 20 * i) (fun _ => []) 3).1 ≠
      .pending ∧
    WebSocket.send (⟨"ws://127.0.0.1:8000/ws", some (),
      some (fun _ => false)⟩ : WebSocket Nat) [0, 1] = .pending :=
  ⟨(mqtt_wait_bounded_ws_unbounded).1
      ⟨"b", 1883, "agent/request", "agent/response", none, 30, some (), []⟩
      (fun i => 20 * i) (fun _ => []) 2 3
      (fun a b hab => Nat.mul_le_mul_left 20 hab) (by norm_num)
      (by norm_num),
    (mqtt_wait_bounded_ws_unbounded).2
      ⟨"ws://127.0.0.1:8000/ws", some (), some (fun _ => false)⟩
      (fun _ => false) [0, 1] rfl rfl (fun m hm => rfl)⟩

/-- C5: for every transport variant, calling `send` while the Transport is
Unconnected (`connect` never called, handle still `None`) or Closed
(`close` already called, handle reset to `None`) raises the not-connected
`ConnectionError` and has no other effect: in particular the MQTT inbox
buffer is left exactly as it was. -/
theorem send_unconnected_notConnected {α : Type} :
    (∀ (b : String) (p : Nat) (rt st : String) (cb : Option (α → Bool))
      (t : Nat) (msgs : List α) (clock : Nat → Nat)
      (arrivals : Nat → List α) (fuel : Nat),
      MQTT.send ⟨b, p, rt, st, cb, t, none, msgs⟩ clock arrivals fuel =
        (.err .notConnected, msgs)) ∧
    (∀ (s : MQTT α) (clock : Nat → Nat) (arrivals : Nat → List α)
      (fuel : Nat),
      MQTT.send (MQTT.close s) clock arrivals fuel =
        (.err .notConnected, s.messages)) ∧
    (∀ (u : String) (cb : Option (α → Bool)) (frames : List α),
      WebSocket.send ⟨u, none, cb⟩ frames = .err .notConnected) ∧
    (∀ (w : WebSocket α) (frames : List α),
      WebSocket.send (WebSocket.close w) frames = .err .notConnected) ∧
    (∀ (bu : Option String) (ep : String) (t : Int) (e : Option (α → Bool))
      (net : NetResult α),
      HTTP.send ⟨bu, ep, t, e, none⟩ net = .err .notConnected) ∧
    (∀ (h : HTTP α) (net : NetResult α),
      HTTP.send (HTTP.close h) net = .err .notConnected) := by
  refine ⟨fun b p rt st cb t msgs clock arrivals fuel => rfl, ?_,
    fun u cb frames => rfl, ?_, fun bu ep t e net => rfl, ?_⟩
  · intro s clock arrivals fuel
    rcases hc : s.client with _ | u <;> simp [MQTT.close, MQTT.send, hc]
  · intro w frames
    rcases hc : w.ws with _ | u <;> simp [WebSocket.close, WebSocket.send, hc]
  · intro h net
    rcases hc : h.client with _ | u <;> simp [HTTP.close, HTTP.send, hc]

/-- C6: in the MQTT streaming loop, an available Message is popped and the
Termination Predicate evaluated before the elapsed time is compared to
the deadline: when the buffer holds a final Message on an iteration at
which the deadline has already elapsed, the loop returns the full
sequence instead of raising `TimeoutError`. -/
theorem deadline_tie_predicate_wins {α : Type} (cb : α → Bool)
    (timeout : Nat) (clock : Nat → Nat) (arrivals : Nat → List α)
    (fuel i : Nat) (buffer results : List α) (m : α) (rest : List α)
    (hbuf : buffer ++ arrivals i = m :: rest)
    (hcb : cb m = true)
    (hexp : timeout < clock i) :
    mqttStreamLoop cb timeout clock arrivals (fuel + 1) i buffer results =
      (.stream (results ++ [m]), rest) := by
  simp [mqttStreamLoop, hbuf, hcb]

/-- Witness for C6: at a poll iteration where the clock reads 100 against
a timeout of 30, a buffered final message still yields a successful
stream. -/
theorem deadline_tie_predicate_wins_witness :
    mqttStreamLoop (fun m : Nat => m == 1) 30 (fun _ => 100) (fun _ => [])
      1 0 [1] [] = (.stream [1], []) :=
  deadline_tie_predicate_wins (fun m : Nat => m == 1) 30 (fun _ => 100)
    (fun _ => []) 0 0 [1] [] 1 [] rfl rfl (by norm_num)

/-- C7 counterexample: closing a connected MQTT client whose inbox buffer
holds an unconsumed message leaves that message in `self.messages`:
`close` never clears the buffer, so the post-close buffer is not
empty. -/
theorem close_leaves_buffer_nonempty :
    (MQTT.close (⟨"b", 1883, "agent/request", "agent/response", none, 30,
      some (), [7]⟩ : MQTT Nat)).messages ≠ [] := by
  simp [MQTT.close]

/-- C7 amended: `MQTT.close` resets the client handle (stopping the
listener) but leaves the inbox buffer exactly as it was — buffered but
never-consumed Messages are retained, not discarded, after `close`
returns. -/
theorem close_clears_client_keeps_buffer {α : Type} (s : MQTT α) :
    (MQTT.close s).client = none ∧ (MQTT.close s).messages = s.messages := by
  rcases hc : s.client with _ | u <;> simp [MQTT.close, hc]

/-- C8 counterexample: calling `connect` on an already-connected instance
of each variant succeeds silently — it returns normally with a (fresh)
connected handle instead of surfacing a caller error. -/
theorem connect_while_connected_no_error :
    MQTT.connect (⟨"b", 1883, "agent/request", "agent/response", none, 30,
      some (), []⟩ : MQTT Nat) true =
      .ok ⟨"b", 1883, "agent/request", "agent/response", none, 30,
        some (), []⟩ ∧
    WebSocket.connect (⟨"ws://127.0.0.1:8000/ws", some (), none⟩ :
      WebSocket Nat) true = .ok ⟨"ws://127.0.0.1:8000/ws", some (), none⟩ ∧
    HTTP.connect (⟨some "http://127.0.0.1:8000", "/chat", 30, none,
      some ()⟩ : HTTP Nat) =
      ⟨some "http://127.0.0.1:8000", "/chat", 30, none, some ()⟩ :=
  ⟨rfl, rfl, rfl⟩

/-- C8 amended: `connect` called while already Connected raises no error
in any variant: each one unconditionally establishes a fresh connection
and overwrites the existing handle, silently. -/
theorem connect_reconnects_silently {α : Type} (s : MQTT α)
    (w : WebSocket α) (h : HTTP α) :
    MQTT.connect s true = .ok { s with client := some () } ∧
    WebSocket.connect w true = .ok { w with ws := some () } ∧
    HTTP.connect h = { h with client := some () } :=
  ⟨rfl, rfl, rfl⟩

/-- C9: `close` is idempotent for every transport variant: a second
consecutive `close` changes nothing (and raises nothing), and `close` on
a never-connected instance is a no-op. -/
theorem close_idempotent_all_variants {α : Type} (s : MQTT α)
    (w : WebSocket α) (h : HTTP α) (b : String) (p : Nat) (rt st : String)
    (cb : Option (α → Bool)) (t : Nat) (msgs : List α) (u : String)
    (wcb : Option (α → Bool)) (bu : Option String) (ep : String) (ti : Int)
    (e : Option (α → Bool)) :
    MQTT.close (MQTT.close s) = MQTT.close s ∧
    WebSocket.close (WebSocket.close w) = WebSocket.close w ∧
    HTTP.close (HTTP.close h) = HTTP.close h ∧
    MQTT.close ⟨b, p, rt, st, cb, t, none, msgs⟩ =
      ⟨b, p, rt, st, cb, t, none, msgs⟩ ∧
    WebSocket.close ⟨u, none, wcb⟩ = ⟨u, none, wcb⟩ ∧
    HTTP.close ⟨bu, ep, ti, e, none⟩ = ⟨bu, ep, ti, e, none⟩ := by
  refine ⟨?_, ?_, ?_, rfl, rfl, rfl⟩
  · rcases hc : s.client with _ | uu <;> simp [MQTT.close, hc]
  · rcases hc : w.ws with _ | uu <;> simp [WebSocket.close, hc]
  · rcases hc : h.client with _ | uu <;> simp [HTTP.close, hc]

/-- C10: `HTTP.__init__` validates eagerly: a `None` base_url raises
`TypeError` (checked first); otherwise a non-positive timeout raises
`ValueError`; otherwise the constructor stores `base_url`, `endpoint`,
`timeout` and the predicate unchanged and leaves the client handle
`None` (Unconnected). -/
theorem http_init_validation {α : Type} (ended : Option (α → Bool))
    (bu : Option String) (ep : String) (t : Int) :
    (bu = none → HTTP.init ended bu ep t = .error .typeError) ∧
    (bu ≠ none → t ≤ 0 → HTTP.init ended bu ep t = .error .valueError) ∧
    (bu ≠ none → 0 < t →
      HTTP.init ended bu ep t = .ok ⟨bu, ep, t, ended, none⟩) := by
  refine ⟨?_, ?_, ?_⟩
  · intro hbu
    simp [HTTP.init, hbu]
  · intro hbu ht
    simp [HTTP.init, hbu, ht]
  · intro hbu ht
    have hnt : ¬ t ≤ 0 := by omega
    simp [HTTP.init, hbu, hnt]

/-- Witness for C10: all three constructor behaviours at concrete
inputs. -/
theorem http_init_validation_witness :
    HTTP.init (α := Nat) none none "/chat" 30 = .error .typeError ∧
    HTTP.init (some (fun m : Nat => m == 0)) (some "http://127.0.0.1:8000")
      "/chat" 0 = .error .valueError ∧
    HTTP.init (some (fun m : Nat => m == 0)) (some "http://127.0.0.1:8000")
      "/chat" 30 =
      .ok ⟨some "http://127.0.0.1:8000", "/chat", 30,
        some (fun m : Nat => m == 0), none⟩ :=
  ⟨(http_init_validation none none "/chat" 30).1 rfl,
    (http_init_validation (some (fun m : Nat => m == 0))
      (some "http://127.0.0.1:8000") "/chat" 0).2.1 (by simp) (by norm_num),
    (http_init_validation (some (fun m : Nat => m == 0))
      (some "http://127.0.0.1:8000") "/chat" 30).2.2 (by simp)
      (by norm_num)⟩
